import Mathlib

/-!
  # SlackAlert callback: verified model

  Shallow embedding of `src/callbacks/slack_alert.py`, a PyTorch Lightning
  callback that posts Slack alerts on three lifecycle events:
  `on_train_epoch_end`, `on_exception`, `teardown`.

  Modelling conventions:
  - The callback object's mutable fields form the structure `SlackAlert`
    (the spec's NotifierState).  The source also stores an unused
    `pl_module_device` field, assigned `None` in `__init__` and never
    touched again; it is included for completeness.
  - Environment inputs the Python code reads at call time (the trainer's
    `current_epoch`, `global_step`, `strategy.root_device`, the wandb run's
    `id` and `url`, wall-clock timestamps, the formatted stack trace, the
    hostname) are passed as parameters.
  - Each handler returns its new state together with the list of messages
    passed to the external `alert` function and the list of strings passed
    to `print`, in order.  `on_exception` additionally returns the
    exception it re-raises; in the source every path of `on_exception`
    ends in `raise exception`, which the model captures by always
    producing a `raised` value.
  - Python exceptions are modelled by `PyExc`: a flag saying whether the
    object is an instance of `KeyboardInterrupt`, plus an identity tag so
    that "re-raises the same exception object" is expressible.
  - Python integers are unbounded, hence `Int`.
-/

/-- A Python exception object: whether it is an instance of
`KeyboardInterrupt`, and an identity tag modelling object identity
(so that re-raising the *same* object is expressible). -/
structure PyExc where
  isKeyboardInterrupt : Bool
  eid : Nat
deriving DecidableEq, Repr

/-- Mutable state of the `SlackAlert` callback object, fields in the order
`__init__` assigns them.  `hostname` is `socket.gethostname()` resolved at
construction; `pl_module_device` is assigned `None` and never used. -/
structure SlackAlert where
  exception_only : Bool
  pl_module_device : Option String
  exception_occurred : Bool
  disabled : Bool
  ignore_keyboard_interrupt : Bool
  at_epoch : Option Int
  at_global_step : Option Int
  hostname : String
deriving DecidableEq, Repr

/-- Constructor `SlackAlert.__init__`; `hostname` stands for the
environment's `socket.gethostname()`. -/
def SlackAlert.init (exception_only disabled ignore_keyboard_interrupt : Bool)
    (at_epoch at_global_step : Option Int) (hostname : String) : SlackAlert :=
  { exception_only := exception_only
    pl_module_device := none
    exception_occurred := false
    disabled := disabled
    ignore_keyboard_interrupt := ignore_keyboard_interrupt
    at_epoch := at_epoch
    at_global_step := at_global_step
    hostname := hostname }

/-- The Python boolean `threshold is not None and current >= threshold`,
the guard pattern of both branches of `on_train_epoch_end`. -/
def thresholdMet (threshold : Option Int) (current : Int) : Bool :=
  match threshold with
  | none => false
  | some n => decide (current ≥ n)

/-- Which branch of the `if / elif / else` in `on_train_epoch_end` runs,
carrying the threshold value the fired branch read before clearing it. -/
inductive EpochEndBranch where
  | epochFired (e : Int)
  | stepFired (g : Int)
  | noFire
deriving DecidableEq, Repr

/-- The branch is the epoch-threshold branch. -/
def EpochEndBranch.firesEpoch : EpochEndBranch → Bool
  | .epochFired _ => true
  | _ => false

/-- The branch is the global-step-threshold branch. -/
def EpochEndBranch.firesStep : EpochEndBranch → Bool
  | .stepFired _ => true
  | _ => false

/-- The `elif self.at_global_step is not None and trainer.global_step >=
self.at_global_step` test, reached only when the epoch branch did not run. -/
def stepBranch (self : SlackAlert) (global_step : Int) : EpochEndBranch :=
  match self.at_global_step with
  | some g => if global_step ≥ g then .stepFired g else .noFire
  | none => .noFire

/-- The three-way branch of `on_train_epoch_end`: the epoch threshold is
checked first (`if self.at_epoch is not None and trainer.current_epoch >=
self.at_epoch`), the global-step threshold only in the `elif`. -/
def epochEndBranch (self : SlackAlert) (current_epoch global_step : Int) : EpochEndBranch :=
  match self.at_epoch with
  | some e => if current_epoch ≥ e then .epochFired e else stepBranch self global_step
  | none => stepBranch self global_step

/-- Title built by the epoch-threshold branch:
`f'Training progress: epoch {self.at_epoch} completed'`. -/
def epochTitle (e : Int) : String :=
  "Training progress: epoch " ++ toString e ++ " completed"

/-- Title built by the global-step branch:
`f'Training progress: global step {self.at_global_step} completed'`. -/
def stepTitle (g : Int) : String :=
  "Training progress: global step " ++ toString g ++ " completed"

/-- Message sent by `on_train_epoch_end` after a branch fired: the title
with the run id appended, then timestamp, hostname, device, wandb URL. -/
def progressMessage (title run_id run_url hostname device formatted_time : String) : String :=
  "*" ++ title ++ " for run `" ++ run_id ++ "`*\nTime completed: " ++ formatted_time ++
    "\nHostname: " ++ hostname ++ "\nDevice: " ++ device ++ "\nWandb URL: " ++ run_url ++ "\n"

/-- Result of one `on_train_epoch_end` call: the updated callback state and
the messages handed to `alert` (zero or one). -/
structure EpochEndResult where
  state : SlackAlert
  alerts : List String
deriving DecidableEq, Repr

/-- Handler `on_train_epoch_end`.  The fired branch clears its own
threshold (`self.at_epoch = None` resp. `self.at_global_step = None`) and
sends one alert; the `else` branch returns immediately. -/
def SlackAlert.on_train_epoch_end (self : SlackAlert) (current_epoch global_step : Int)
    (run_id run_url device formatted_time : String) : EpochEndResult :=
  match epochEndBranch self current_epoch global_step with
  | .epochFired e =>
      { state := { self with at_epoch := none }
        alerts := [progressMessage (epochTitle e) run_id run_url self.hostname device formatted_time] }
  | .stepFired g =>
      { state := { self with at_global_step := none }
        alerts := [progressMessage (stepTitle g) run_id run_url self.hostname device formatted_time] }
  | .noFire => { state := self, alerts := [] }

/-- Message sent by `on_exception`:
`f'*Exception Occurred*```{stack_trace}```\nHost: {hostname}\nDevice: {device}\nTime: {now}'`. -/
def exceptionMessage (stack_trace hostname device now_str : String) : String :=
  "*Exception Occurred*```" ++ stack_trace ++ "```\nHost: " ++ hostname ++
    "\nDevice: " ++ device ++ "\nTime: " ++ now_str

/-- The line printed (not alerted) when a keyboard interrupt is ignored. -/
def keyboardInterruptNotice : String :=
  "SlackAlert: Encountered keyboard interrupt. Slack alert not sent.\nTo enable slack alerts on keyboard interrupts, set `ignore_keyboard_interrupt` to False."

/-- Result of one `on_exception` call: updated state, messages handed to
`alert`, strings handed to `print`, and the exception re-raised at the end
of the handler (every path of the source ends in `raise exception`). -/
structure ExceptionResult where
  state : SlackAlert
  alerts : List String
  printed : List String
  raised : PyExc
deriving DecidableEq, Repr

/-- Handler `on_exception`.  `stack_trace` is `traceback.format_exc()`,
`device` is `str(trainer.strategy.root_device)`, `now_str` the formatted
`datetime.now().replace(microsecond=0)`. -/
def SlackAlert.on_exception (self : SlackAlert) (exception : PyExc)
    (stack_trace device now_str : String) : ExceptionResult :=
  if self.disabled then
    { state := self, alerts := [], printed := [], raised := exception }
  else
    let message := exceptionMessage stack_trace self.hostname device now_str
    if exception.isKeyboardInterrupt && self.ignore_keyboard_interrupt then
      { state := self, alerts := [], printed := [keyboardInterruptNotice], raised := exception }
    else
      { state := { self with exception_occurred := true }
        alerts := [message], printed := [], raised := exception }

/-- Title of the teardown alert: `f'{stage.capitalize()} completed'`.
`pyCapitalize` models Python `str.capitalize` (ASCII): first character
uppercased, the rest lowercased. -/
def pyCapitalize (s : String) : String :=
  match s.data with
  | [] => ""
  | c :: cs => String.mk (c.toUpper :: cs.map Char.toLower)

/-- Teardown alert title `f'{stage.capitalize()} completed'`. -/
def teardownTitle (stage : String) : String :=
  pyCapitalize stage ++ " completed"

/-- Message sent by `teardown` on the success path. -/
def teardownMessage (stage hostname device formatted_time : String) : String :=
  "*" ++ teardownTitle stage ++ "*\n```Time completed: " ++ formatted_time ++
    "\nHostname: " ++ hostname ++ "\nDevice: " ++ device ++ "```"

/-- Result of one `teardown` call: state (never modified by the source) and
messages handed to `alert`. -/
structure TeardownResult where
  state : SlackAlert
  alerts : List String
deriving DecidableEq, Repr

/-- Handler `teardown`.  The `@rank_zero_only` decorator makes the whole
body a no-op on non-rank-zero processes, modelled by `is_rank_zero`.  On
rank zero, the alert is sent iff `not self.exception_only and not
self.exception_occurred and not self.disabled`. -/
def SlackAlert.teardown (self : SlackAlert) (is_rank_zero : Bool)
    (stage device formatted_time : String) : TeardownResult :=
  if is_rank_zero then
    if !self.exception_only && !self.exception_occurred && !self.disabled then
      { state := self
        alerts := [teardownMessage stage self.hostname device formatted_time] }
    else
      { state := self, alerts := [] }
  else
    { state := self, alerts := [] }

/-- Inputs of one `on_train_epoch_end` call, for reasoning about call
sequences. -/
structure EpochEndCall where
  current_epoch : Int
  global_step : Int
  run_id : String
  run_url : String
  device : String
  formatted_time : String
deriving DecidableEq, Repr

/-- The state after one `on_train_epoch_end` call. -/
def applyEpochEnd (s : SlackAlert) (c : EpochEndCall) : SlackAlert :=
  (s.on_train_epoch_end c.current_epoch c.global_step c.run_id c.run_url c.device c.formatted_time).state

/-- The branch taken at each call of a sequence of `on_train_epoch_end`
calls starting from state `s`. -/
def runBranches (s : SlackAlert) : List EpochEndCall → List EpochEndBranch
  | [] => []
  | c :: cs => epochEndBranch s c.current_epoch c.global_step :: runBranches (applyEpochEnd s c) cs

/-! ## Helper lemmas -/

/-- A false guard `thresholdMet o x = false` refutes `x ≥ n` for the value
`n` the threshold holds. -/
lemma thresholdMet_false {o : Option Int} {x : Int} (h : thresholdMet o x = false)
    (n : Int) (hn : o = some n) : ¬ x ≥ n := by
  rw [hn] at h
  simpa [thresholdMet] using h

/-- The `elif` branch never takes the epoch-threshold branch. -/
lemma stepBranch_not_firesEpoch (self : SlackAlert) (gs : Int) :
    (stepBranch self gs).firesEpoch = false := by
  unfold stepBranch
  cases hg : self.at_global_step with
  | none => rfl
  | some g =>
      by_cases h : gs ≥ g <;> simp [h, EpochEndBranch.firesEpoch]

/-- With no epoch threshold set, the branch decision is the `elif` test. -/
lemma epochEndBranch_of_at_epoch_none (self : SlackAlert) (h : self.at_epoch = none)
    (ce gs : Int) : epochEndBranch self ce gs = stepBranch self gs := by
  unfold epochEndBranch
  rw [h]

/-- An unset epoch threshold never fires. -/
lemma epochEndBranch_not_firesEpoch (self : SlackAlert) (h : self.at_epoch = none)
    (ce gs : Int) : (epochEndBranch self ce gs).firesEpoch = false := by
  rw [epochEndBranch_of_at_epoch_none self h]
  exact stepBranch_not_firesEpoch self gs

/-- An unset global-step threshold never fires. -/
lemma epochEndBranch_not_firesStep (self : SlackAlert) (h : self.at_global_step = none)
    (ce gs : Int) : (epochEndBranch self ce gs).firesStep = false := by
  unfold epochEndBranch stepBranch
  cases he : self.at_epoch with
  | none => simp [h, EpochEndBranch.firesStep]
  | some e =>
      by_cases hce : ce ≥ e <;> simp [hce, h, EpochEndBranch.firesStep]

/-- An epoch-end call never re-arms the epoch threshold. -/
lemma applyEpochEnd_at_epoch_none (s : SlackAlert) (c : EpochEndCall)
    (h : s.at_epoch = none) : (applyEpochEnd s c).at_epoch = none := by
  unfold applyEpochEnd SlackAlert.on_train_epoch_end
  rw [epochEndBranch_of_at_epoch_none s h]
  unfold stepBranch
  cases hg : s.at_global_step with
  | none => simpa using h
  | some g => by_cases hge : c.global_step ≥ g <;> simp [hge, h]

/-- An epoch-end call never re-arms the global-step threshold. -/
lemma applyEpochEnd_at_global_step_none (s : SlackAlert) (c : EpochEndCall)
    (h : s.at_global_step = none) : (applyEpochEnd s c).at_global_step = none := by
  unfold applyEpochEnd SlackAlert.on_train_epoch_end
  unfold epochEndBranch stepBranch
  cases he : s.at_epoch with
  | none => simp [h]
  | some e => by_cases hce : c.current_epoch ≥ e <;> simp [hce, h]

/-- Once the epoch threshold is unset, no call of any later sequence takes
the epoch-threshold branch. -/
lemma runBranches_no_epochFired (calls : List EpochEndCall) :
    ∀ s : SlackAlert, s.at_epoch = none →
      ∀ b ∈ runBranches s calls, b.firesEpoch = false := by
  induction calls with
  | nil => intro s _ b hb; simp [runBranches] at hb
  | cons c cs ih =>
      intro s h b hb
      simp only [runBranches, List.mem_cons] at hb
      rcases hb with hb | hb
      · subst hb; exact epochEndBranch_not_firesEpoch s h _ _
      · exact ih (applyEpochEnd s c) (applyEpochEnd_at_epoch_none s c h) b hb

/-- Once the global-step threshold is unset, no call of any later sequence
takes the global-step branch. -/
lemma runBranches_no_stepFired (calls : List EpochEndCall) :
    ∀ s : SlackAlert, s.at_global_step = none →
      ∀ b ∈ runBranches s calls, b.firesStep = false := by
  induction calls with
  | nil => intro s _ b hb; simp [runBranches] at hb
  | cons c cs ih =>
      intro s h b hb
      simp only [runBranches, List.mem_cons] at hb
      rcases hb with hb | hb
      · subst hb; exact epochEndBranch_not_firesStep s h _ _
      · exact ih (applyEpochEnd s c) (applyEpochEnd_at_global_step_none s c h) b hb

/-- A call whose branch fires the epoch threshold leaves it unset. -/
lemma on_train_epoch_end_clears_at_epoch (s : SlackAlert) (ce gs : Int)
    (rid url dev t : String) (h : (epochEndBranch s ce gs).firesEpoch = true) :
    (s.on_train_epoch_end ce gs rid url dev t).state.at_epoch = none := by
  cases hb : epochEndBranch s ce gs with
  | epochFired e => simp [SlackAlert.on_train_epoch_end, hb]
  | stepFired g => rw [hb] at h; simp [EpochEndBranch.firesEpoch] at h
  | noFire => rw [hb] at h; simp [EpochEndBranch.firesEpoch] at h

/-- A call whose branch fires the global-step threshold leaves it unset. -/
lemma on_train_epoch_end_clears_at_global_step (s : SlackAlert) (ce gs : Int)
    (rid url dev t : String) (h : (epochEndBranch s ce gs).firesStep = true) :
    (s.on_train_epoch_end ce gs rid url dev t).state.at_global_step = none := by
  cases hb : epochEndBranch s ce gs with
  | epochFired e => rw [hb] at h; simp [EpochEndBranch.firesStep] at h
  | stepFired g => simp [SlackAlert.on_train_epoch_end, hb]
  | noFire => rw [hb] at h; simp [EpochEndBranch.firesStep] at h

/-! ## Claim theorems -/

/-- C1, counterexample: the claim says `exception_occurred` is true after
every `on_exception` call with `disabled = false`, "regardless of the
exception's type and of the ignore_keyboard_interrupt flag".  But with
`ignore_keyboard_interrupt = true` and a `KeyboardInterrupt`, the handler
re-raises before the `self.exception_occurred = True` line, so the flag
stays false. -/
theorem on_exception_kb_ignored_keeps_flag_false :
    ((SlackAlert.init false false true none none "host").on_exception
        { isKeyboardInterrupt := true, eid := 0 } "trace" "cpu" "now").state.exception_occurred
      = false := rfl

/-- C1, amended: with `disabled = false`, `exception_occurred` is true
after `on_exception` returns (re-raises) UNLESS the exception is a
`KeyboardInterrupt` and `ignore_keyboard_interrupt` is true, in which case
the state is unchanged (so `exception_occurred` keeps its old value). -/
theorem on_exception_sets_flag_unless_suppressed (self : SlackAlert) (exception : PyExc)
    (stack_trace device now_str : String) (hd : self.disabled = false) :
    ((exception.isKeyboardInterrupt && self.ignore_keyboard_interrupt) = false →
      (self.on_exception exception stack_trace device now_str).state.exception_occurred = true) ∧
    ((exception.isKeyboardInterrupt && self.ignore_keyboard_interrupt) = true →
      (self.on_exception exception stack_trace device now_str).state = self) := by
  constructor
  · intro hk
    simp [SlackAlert.on_exception, hd, hk]
  · intro hk
    simp [SlackAlert.on_exception, hd, hk]

/-- C1, witness for the amended theorem at a concrete non-interrupt call. -/
theorem on_exception_sets_flag_unless_suppressed_witness :
    (SlackAlert.init false false true none none "host").disabled = false ∧
    (({ isKeyboardInterrupt := false, eid := 1 } : PyExc).isKeyboardInterrupt &&
      (SlackAlert.init false false true none none "host").ignore_keyboard_interrupt) = false ∧
    ((SlackAlert.init false false true none none "host").on_exception
        { isKeyboardInterrupt := false, eid := 1 } "trace" "cpu" "now").state.exception_occurred
      = true :=
  ⟨rfl, rfl,
    (on_exception_sets_flag_unless_suppressed (SlackAlert.init false false true none none "host")
      { isKeyboardInterrupt := false, eid := 1 } "trace" "cpu" "now" rfl).1 rfl⟩

/-- C2: every path of `on_exception` re-raises exactly the exception object
it received, for every state and every exception. -/
theorem on_exception_reraises_same_exception (self : SlackAlert) (exception : PyExc)
    (stack_trace device now_str : String) :
    (self.on_exception exception stack_trace device now_str).raised = exception := by
  by_cases h1 : self.disabled <;>
    by_cases h2 : exception.isKeyboardInterrupt && self.ignore_keyboard_interrupt <;>
      simp [SlackAlert.on_exception, h1, h2]

/-- C5: with `disabled = true`, `on_exception` sends no alert, prints
nothing, leaves the state unchanged and re-raises the original exception. -/
theorem on_exception_disabled_noop (self : SlackAlert) (exception : PyExc)
    (stack_trace device now_str : String) (h : self.disabled = true) :
    self.on_exception exception stack_trace device now_str =
      { state := self, alerts := [], printed := [], raised := exception } := by
  simp [SlackAlert.on_exception, h]

/-- C5, witness at a concrete disabled state and exception. -/
theorem on_exception_disabled_noop_witness :
    (SlackAlert.init false true false none none "host").disabled = true ∧
    (SlackAlert.init false true false none none "host").on_exception
        { isKeyboardInterrupt := true, eid := 2 } "trace" "cpu" "now" =
      { state := SlackAlert.init false true false none none "host",
        alerts := [], printed := [], raised := { isKeyboardInterrupt := true, eid := 2 } } :=
  ⟨rfl, on_exception_disabled_noop (SlackAlert.init false true false none none "host")
    { isKeyboardInterrupt := true, eid := 2 } "trace" "cpu" "now" rfl⟩

/-- C6: with `disabled = false`, `ignore_keyboard_interrupt = true` and a
`KeyboardInterrupt`, `on_exception` sends no alert, prints exactly the one
suppression notice (which names the flag to change), keeps the state, and
re-raises the same exception. -/
theorem on_exception_kb_suppressed (self : SlackAlert) (exception : PyExc)
    (stack_trace device now_str : String) (hd : self.disabled = false)
    (hk : self.ignore_keyboard_interrupt = true) (he : exception.isKeyboardInterrupt = true) :
    self.on_exception exception stack_trace device now_str =
      { state := self, alerts := [], printed := [keyboardInterruptNotice], raised := exception } := by
  simp [SlackAlert.on_exception, hd, hk, he]

/-- C6, witness at a concrete suppressed keyboard interrupt. -/
theorem on_exception_kb_suppressed_witness :
    (SlackAlert.init false false true none none "host").disabled = false ∧
    (SlackAlert.init false false true none none "host").ignore_keyboard_interrupt = true ∧
    ({ isKeyboardInterrupt := true, eid := 3 } : PyExc).isKeyboardInterrupt = true ∧
    (SlackAlert.init false false true none none "host").on_exception
        { isKeyboardInterrupt := true, eid := 3 } "trace" "cpu" "now" =
      { state := SlackAlert.init false false true none none "host",
        alerts := [], printed := [keyboardInterruptNotice],
        raised := { isKeyboardInterrupt := true, eid := 3 } } :=
  ⟨rfl, rfl, rfl, on_exception_kb_suppressed (SlackAlert.init false false true none none "host")
    { isKeyboardInterrupt := true, eid := 3 } "trace" "cpu" "now" rfl rfl rfl⟩

/-- C9: on a non-rank-zero process, `teardown` sends no alert and changes
nothing, whatever the flags are. -/
theorem teardown_non_rank_zero_noop (self : SlackAlert) (stage device formatted_time : String) :
    self.teardown false stage device formatted_time = { state := self, alerts := [] } := rfl

/-- C3: when both thresholds are set and both conditions hold, exactly one
alert is sent and it is the epoch-threshold alert; `at_epoch` is cleared
and `at_global_step` stays set. -/
theorem epoch_priority_when_both_met (s : SlackAlert) (e g ce gs : Int)
    (rid url dev t : String)
    (he : s.at_epoch = some e) (hg : s.at_global_step = some g)
    (hce : ce ≥ e) (_hgs : gs ≥ g) :
    (s.on_train_epoch_end ce gs rid url dev t).alerts =
      [progressMessage (epochTitle e) rid url s.hostname dev t] ∧
    (s.on_train_epoch_end ce gs rid url dev t).state.at_epoch = none ∧
    (s.on_train_epoch_end ce gs rid url dev t).state.at_global_step = some g := by
  have hb : epochEndBranch s ce gs = .epochFired e := by
    simp [epochEndBranch, he, hce]
  refine ⟨?_, ?_, ?_⟩ <;> simp [SlackAlert.on_train_epoch_end, hb, hg]

/-- C3, witness at a concrete call with both conditions met. -/
theorem epoch_priority_when_both_met_witness :
    (SlackAlert.init false false false (some 1) (some 2) "host").at_epoch = some 1 ∧
    (SlackAlert.init false false false (some 1) (some 2) "host").at_global_step = some 2 ∧
    ((SlackAlert.init false false false (some 1) (some 2) "host").on_train_epoch_end
        3 5 "rid" "url" "dev" "tm").alerts =
      [progressMessage (epochTitle 1) "rid" "url" "host" "dev" "tm"] :=
  ⟨rfl, rfl,
    (epoch_priority_when_both_met (SlackAlert.init false false false (some 1) (some 2) "host")
      1 2 3 5 "rid" "url" "dev" "tm" rfl rfl (by decide) (by decide)).1⟩

/-- C4: each threshold is one-shot.  If the branch of an epoch-end call
fires the epoch (resp. global-step) threshold, the resulting state has that
threshold unset, and along any sequence of later epoch-end calls that
branch never fires again. -/
theorem thresholds_one_shot (s : SlackAlert) (ce gs : Int)
    (rid url dev t : String) (calls : List EpochEndCall) :
    ((epochEndBranch s ce gs).firesEpoch = true →
      (s.on_train_epoch_end ce gs rid url dev t).state.at_epoch = none ∧
      ∀ b ∈ runBranches (s.on_train_epoch_end ce gs rid url dev t).state calls,
        b.firesEpoch = false) ∧
    ((epochEndBranch s ce gs).firesStep = true →
      (s.on_train_epoch_end ce gs rid url dev t).state.at_global_step = none ∧
      ∀ b ∈ runBranches (s.on_train_epoch_end ce gs rid url dev t).state calls,
        b.firesStep = false) := by
  constructor
  · intro h
    have hnone := on_train_epoch_end_clears_at_epoch s ce gs rid url dev t h
    exact ⟨hnone, runBranches_no_epochFired calls _ hnone⟩
  · intro h
    have hnone := on_train_epoch_end_clears_at_global_step s ce gs rid url dev t h
    exact ⟨hnone, runBranches_no_stepFired calls _ hnone⟩

/-- C4, witness: a concrete firing epoch threshold, then a later call with
an even larger epoch, where the epoch branch no longer fires. -/
theorem thresholds_one_shot_witness :
    (epochEndBranch (SlackAlert.init false false false (some 2) none "host") 3 0).firesEpoch
      = true ∧
    ((SlackAlert.init false false false (some 2) none "host").on_train_epoch_end
        3 0 "rid" "url" "dev" "tm").state.at_epoch = none ∧
    ∀ b ∈ runBranches ((SlackAlert.init false false false (some 2) none "host").on_train_epoch_end
        3 0 "rid" "url" "dev" "tm").state [⟨9, 9, "rid", "url", "dev", "tm"⟩],
      b.firesEpoch = false :=
  ⟨rfl,
    ((thresholds_one_shot (SlackAlert.init false false false (some 2) none "host")
        3 0 "rid" "url" "dev" "tm" [⟨9, 9, "rid", "url", "dev", "tm"⟩]).1 rfl).1,
    ((thresholds_one_shot (SlackAlert.init false false false (some 2) none "host")
        3 0 "rid" "url" "dev" "tm" [⟨9, 9, "rid", "url", "dev", "tm"⟩]).1 rfl).2⟩

/-- C7: on the rank-zero process, `teardown` sends exactly the one alert
with title `pyCapitalize stage ++ " completed"` iff `exception_only`,
`exception_occurred` and `disabled` are all false; otherwise it sends no
alert, and it never modifies the state. -/
theorem teardown_rank_zero_alert_iff (self : SlackAlert) (stage device formatted_time : String) :
    ((self.teardown true stage device formatted_time).alerts =
        [teardownMessage stage self.hostname device formatted_time] ↔
      (self.exception_only = false ∧ self.exception_occurred = false ∧ self.disabled = false)) ∧
    (¬ (self.exception_only = false ∧ self.exception_occurred = false ∧ self.disabled = false) →
      (self.teardown true stage device formatted_time).alerts = []) ∧
    (self.teardown true stage device formatted_time).state = self := by
  by_cases h1 : self.exception_only <;> by_cases h2 : self.exception_occurred <;>
    by_cases h3 : self.disabled <;>
      simp [SlackAlert.teardown, h1, h2, h3]

/-- C7, witness: a concrete all-flags-false state where the completed alert
is sent. -/
theorem teardown_rank_zero_alert_iff_witness :
    ((SlackAlert.init false false false none none "host").teardown
        true "fit" "cuda:0" "tm").alerts =
      [teardownMessage "fit" "host" "cuda:0" "tm"] :=
  (teardown_rank_zero_alert_iff (SlackAlert.init false false false none none "host")
      "fit" "cuda:0" "tm").1.mpr ⟨rfl, rfl, rfl⟩

/-- C8: when neither threshold guard holds (`threshold is not None and
current >= threshold` false for both), the epoch-end handler sends no
alert and returns with the state unchanged. -/
theorem no_threshold_no_alert (s : SlackAlert) (ce gs : Int) (rid url dev t : String)
    (h1 : thresholdMet s.at_epoch ce = false)
    (h2 : thresholdMet s.at_global_step gs = false) :
    s.on_train_epoch_end ce gs rid url dev t = { state := s, alerts := [] } := by
  have hstep : stepBranch s gs = .noFire := by
    cases hg : s.at_global_step with
    | none => simp [stepBranch, hg]
    | some g => simp [stepBranch, hg, thresholdMet_false h2 g hg]
  have hb : epochEndBranch s ce gs = .noFire := by
    cases he : s.at_epoch with
    | none => simp [epochEndBranch, he, hstep]
    | some e => simp [epochEndBranch, he, thresholdMet_false h1 e he, hstep]
  simp [SlackAlert.on_train_epoch_end, hb]

/-- C8, witness: set thresholds whose conditions are not yet met. -/
theorem no_threshold_no_alert_witness :
    thresholdMet (SlackAlert.init false false false (some 5) (some 7) "host").at_epoch 3
      = false ∧
    thresholdMet (SlackAlert.init false false false (some 5) (some 7) "host").at_global_step 2
      = false ∧
    (SlackAlert.init false false false (some 5) (some 7) "host").on_train_epoch_end
        3 2 "rid" "url" "dev" "tm" =
      { state := SlackAlert.init false false false (some 5) (some 7) "host", alerts := [] } :=
  ⟨by decide, by decide,
    no_threshold_no_alert (SlackAlert.init false false false (some 5) (some 7) "host")
      3 2 "rid" "url" "dev" "tm" (by decide) (by decide)⟩

/-- C10: the suppressed-keyboard-interrupt path leaves the state unchanged
(`exception_occurred` stays false), so a later rank-zero `teardown` with
`exception_only = false` and `disabled = false` still sends the completed
alert. -/
theorem kb_suppressed_then_teardown_alerts (self : SlackAlert) (exception : PyExc)
    (stack_trace device now_str stage device2 t2 : String)
    (hocc : self.exception_occurred = false) (hd : self.disabled = false)
    (hk : self.ignore_keyboard_interrupt = true) (he : exception.isKeyboardInterrupt = true)
    (ho : self.exception_only = false) :
    (self.on_exception exception stack_trace device now_str).state = self ∧
    ((self.on_exception exception stack_trace device now_str).state.teardown
        true stage device2 t2).alerts =
      [teardownMessage stage self.hostname device2 t2] := by
  have hstate : (self.on_exception exception stack_trace device now_str).state = self := by
    simp [SlackAlert.on_exception, hd, hk, he]
  refine ⟨hstate, ?_⟩
  rw [hstate]
  simp [SlackAlert.teardown, ho, hocc, hd]

/-- C10, witness: concrete suppressed interrupt followed by teardown. -/
theorem kb_suppressed_then_teardown_alerts_witness :
    (SlackAlert.init false false true none none "host").exception_occurred = false ∧
    (((SlackAlert.init false false true none none "host").on_exception
        { isKeyboardInterrupt := true, eid := 4 } "trace" "cpu" "now").state.teardown
        true "fit" "cuda:0" "tm").alerts =
      [teardownMessage "fit" "host" "cuda:0" "tm"] :=
  ⟨rfl,
    (kb_suppressed_then_teardown_alerts (SlackAlert.init false false true none none "host")
      { isKeyboardInterrupt := true, eid := 4 } "trace" "cpu" "now" "fit" "cuda:0" "tm"
      rfl rfl rfl rfl rfl).2⟩
